import Mathlib

/-!
Shallow embedding of kernel/power/wakeup_reason.c (wakeup-reason logging for
suspend/resume) and proofs about its operations.

The source file mixes two models of the recorded wakeup set: a flat fixed-size
list of irq numbers (irq_list / irqcount, used by log_wakeup_reason,
last_resume_reason_show and wakeup_reason_pm_event) and a tree-of-nodes model
(build_leaf_nodes, build_unfinished_nodes, get_wakeup_reasons,
clear_wakeup_reasons).  The tree construction itself (node allocation,
walk_irq_node_tree, the completion primitive, logging_wakeup_reasons and
stop_logging_wakeup_reasons) is not part of the file; those parts are modelled
from the specification and are marked as such below.  Everything else follows
the C source line by line.
-/

/-- Number of nanoseconds in one second. -/
def NSEC_PER_SEC : Int := 1000000000

/-- Value of a struct timespec: a seconds field and a nanoseconds field. -/
structure Timespec where
  tv_sec : Int
  tv_nsec : Int
deriving DecidableEq, Repr

/-- Modelled from the spec: set_normalized_timespec of the kernel time library is
not under src; it moves the nanosecond field into the range [0, NSEC_PER_SEC)
while keeping the total value, which is floor division and Euclidean remainder
by NSEC_PER_SEC. -/
def set_normalized_timespec (sec nsec : Int) : Timespec :=
  ⟨sec + nsec / NSEC_PER_SEC, nsec % NSEC_PER_SEC⟩

/-- Modelled from the spec: timespec_sub of the kernel time library is not under
src; it subtracts componentwise and normalizes. -/
def timespec_sub (lhs rhs : Timespec) : Timespec :=
  set_normalized_timespec (lhs.tv_sec - rhs.tv_sec) (lhs.tv_nsec - rhs.tv_nsec)

/-- Total value of a timespec in nanoseconds. -/
def Timespec.toNs (t : Timespec) : Int :=
  t.tv_sec * NSEC_PER_SEC + t.tv_nsec

/-- Capacity of the flat irq list (src line 31). -/
def MAX_WAKEUP_REASON_IRQS : Nat := 32

/-- Modelled from the spec: MAX_SUSPEND_ABORT_LEN comes from the header
linux/wakeup_reason.h, which is not under src; the spec calls it the bounded
text length of the abort reason. -/
def MAX_SUSPEND_ABORT_LEN : Nat := 80

/-- Modelled from the spec: struct wakeup_irq_node is declared in a header that
is not under src.  A node records one wakeup interrupt occurrence: its irq
number, whether its producer finished handling it, and the node it was nested
under.  Nodes live in an arena list in insertion order; the parent field is an
index into that list. -/
structure WakeupIrqNode where
  irq : Int
  handled : Bool
  parent : Option Nat
deriving DecidableEq, Repr

/-- Global state of wakeup_reason.c: the flat irq list, the abort flag and
reason, the four timing snapshots, the wait-efficiency counters, the two
aggregate counters read by suspend_since_boot_show, and the node forest with
its cursor, depth and logging flag (the latter group modelled from the spec
where the source file does not define them). -/
structure State where
  irq_list : List Int
  suspend_abort : Bool
  abort_reason : String
  last_xtime : Timespec
  curr_xtime : Timespec
  last_stime : Timespec
  curr_stime : Timespec
  wakeup_ready_timeout : Nat
  wakeup_ready_wait : Nat
  wakeup_ready_nowait : Nat
  suspend_count : Nat
  abort_count : Nat
  nodes : List WakeupIrqNode
  cur_irq_tree : Option Nat
  cur_irq_tree_depth : Nat
  logging_active : Bool
deriving DecidableEq, Repr

/-- State at process start: everything empty, cleared, zero. -/
def init_state : State :=
  { irq_list := []
    suspend_abort := false
    abort_reason := ""
    last_xtime := ⟨0, 0⟩
    curr_xtime := ⟨0, 0⟩
    last_stime := ⟨0, 0⟩
    curr_stime := ⟨0, 0⟩
    wakeup_ready_timeout := 0
    wakeup_ready_wait := 0
    wakeup_ready_nowait := 0
    suspend_count := 0
    abort_count := 0
    nodes := []
    cur_irq_tree := none
    cur_irq_tree_depth := 0
    logging_active := false }

/-- Embeds log_wakeup_reason (src 124-144): when the flat list already holds
MAX_WAKEUP_REASON_IRQS entries the function only prints a warning and returns,
otherwise it appends the irq at position irqcount and increments irqcount.
The list length plays the role of irqcount. -/
def log_wakeup_reason (irq : Int) (s : State) : State :=
  if s.irq_list.length = MAX_WAKEUP_REASON_IRQS then s
  else { s with irq_list := s.irq_list ++ [irq] }

/-- Truncation performed by vsnprintf into a buffer of MAX_SUSPEND_ABORT_LEN
bytes (src 175): at most MAX_SUSPEND_ABORT_LEN - 1 characters are kept. -/
def truncate_abort (r : String) : String :=
  String.mk (r.data.take (MAX_SUSPEND_ABORT_LEN - 1))

/-- Embeds log_suspend_abort_reason (src 161-178): if the abort flag is already
set the call returns without changing anything; otherwise it sets the flag and
stores the truncated reason text. -/
def log_suspend_abort_reason (r : String) (s : State) : State :=
  if s.suspend_abort then s
  else { s with suspend_abort := true, abort_reason := truncate_abort r }

/-- Embeds last_resume_reason_show (src 48-69): when the abort flag is set the
report is the abort reason behind the literal Abort marker; otherwise one line
per recorded irq.  The irq-descriptor name lookup is an external collaborator;
the embedding renders the branch taken when no descriptor name is available,
one irq number per line. -/
def last_resume_reason_show (s : State) : String :=
  if s.suspend_abort then "Abort: " ++ s.abort_reason
  else s.irq_list.foldl (fun acc irq => acc ++ toString irq ++ "\n") ""

/-- Embeds last_suspend_time_show (src 71-89): it computes
sleep_time = curr_stime - last_stime, total_time = curr_xtime - last_xtime and
suspend_resume_time = total_time - sleep_time, and exports the pair
(suspend_resume_time, sleep_time) in that order.  The function performs no
check on the computed values; it returns them as they are. -/
def last_suspend_time_show (s : State) : Timespec × Timespec :=
  (timespec_sub (timespec_sub s.curr_xtime s.last_xtime)
                (timespec_sub s.curr_stime s.last_stime),
   timespec_sub s.curr_stime s.last_stime)

/-- Does node i have a child: in the arena model a node has a child exactly when
some node points back to it through its parent field.  build_leaf_nodes
(src 195-201) keeps a node when its child field is null. -/
def has_child (s : State) (i : Nat) : Bool :=
  s.nodes.any (fun n => n.parent == some i)

/-- Modelled from the spec: walk_irq_node_tree is not under src; per the spec
the walk visits the forest in insertion order and leaf collection preserves
that order.  Combined with the filter of build_leaf_nodes (src 195-201) the
collected leaves are the childless nodes in insertion order.  Used by
get_wakeup_reasons_nosync (src 203-209). -/
def collect_leaves (s : State) : List Nat :=
  (List.range s.nodes.length).filter (fun i => !(has_child s i))

/-- Handled flag of node i (false when i is out of range, which never happens
for indices produced by the filters below). -/
def node_handled (s : State) (i : Nat) : Bool :=
  (s.nodes.getD i ⟨0, true, none⟩).handled

/-- Embeds build_unfinished_nodes (src 211-220): collects every node whose
handled flag is still false.  The walk order is modelled from the spec as
insertion order, as for collect_leaves. -/
def build_unfinished_nodes (s : State) : List Nat :=
  (List.range s.nodes.length).filter (fun i => !(node_handled s i))

/-- Result of get_wakeup_reasons: the returned list pointer (none models the
NULL return of the timeout branch), the unfinished list filled through the out
parameter, and the updated state. -/
structure GetResult where
  leaves : Option (List Nat)
  unfinished : List Nat
  state : State
deriving DecidableEq, Repr

/-- Value of the local variable signalled of get_wakeup_reasons (src 228-232):
it starts at 0 and the completion wait overwrites it only when the timeout is
nonzero.  The completion wait itself is an external primitive; the parameter
signalled models the value wait_for_completion_timeout would return (0 on
timeout, otherwise the jiffies that remained). -/
def wait_outcome (timeout signalled : Nat) : Nat :=
  if timeout ≠ 0 then signalled else 0

/-- Embeds get_wakeup_reasons (src 222-251).  With logging active and a zero
wait outcome the call takes the timeout branch: it increments
wakeup_ready_timeout, stops logging, collects the unfinished nodes and returns
NULL.  Without active logging the function increments wakeup_ready_nowait and
returns the leaf list at once.  On a successful wait it raises
wakeup_ready_wait to the observed waiting time if larger and returns the leaf
list. -/
def get_wakeup_reasons (timeout signalled : Nat) (s : State) : GetResult :=
  if s.logging_active then
    if wait_outcome timeout signalled = 0 then
      { leaves := none
        unfinished := build_unfinished_nodes s
        state := { s with wakeup_ready_timeout := s.wakeup_ready_timeout + 1
                          logging_active := false } }
    else
      { leaves := some (collect_leaves s)
        unfinished := []
        state := { s with wakeup_ready_wait := max s.wakeup_ready_wait (timeout - wait_outcome timeout signalled) } }
  else
    { leaves := some (collect_leaves s)
      unfinished := []
      state := { s with wakeup_ready_nowait := s.wakeup_ready_nowait + 1 } }

/-- Embeds clear_wakeup_reasons / clear_wakeup_reasons_nolock (src 260-278):
frees every node of the forest, resets the root set, cursor and depth, and
clears the abort flag. -/
def clear_wakeup_reasons (s : State) : State :=
  { s with nodes := []
           cur_irq_tree := none
           cur_irq_tree_depth := 0
           suspend_abort := false }

/-- Events of the PM notifier. -/
inductive PmEvent
  | suspend_prepare
  | post_suspend
  | other
deriving DecidableEq, Repr

/-- Embeds wakeup_reason_pm_event (src 281-304).  On PM_SUSPEND_PREPARE it
clears the recorded irq set and the abort flag and snapshots the pre-suspend
wall time and sleep accumulator; on PM_POST_SUSPEND it snapshots the
post-suspend wall time and sleep accumulator; other events change nothing.
The parameters xt and st are the samples the external time source returns at
this event. -/
def wakeup_reason_pm_event (ev : PmEvent) (xt st : Timespec) (s : State) : State :=
  match ev with
  | .suspend_prepare =>
      { s with irq_list := []
               suspend_abort := false
               last_xtime := xt
               last_stime := st }
  | .post_suspend =>
      { s with curr_xtime := xt
               curr_stime := st }
  | .other => s

/-- Modelled from the spec: begin_node(irq) is not under src.  When the depth
cap is hit the event is dropped (CapacityExceeded) and nothing changes.
Otherwise a fresh unhandled node is appended to the arena as a child of the
cursor (or as a new root when there is no cursor), the cursor advances to it,
the depth grows, and logging is armed lazily on the first recorded node. -/
def begin_node (irq : Int) (s : State) : State :=
  if MAX_WAKEUP_REASON_IRQS ≤ s.cur_irq_tree_depth then s
  else
    { s with nodes := s.nodes ++ [⟨irq, false, s.cur_irq_tree⟩]
             cur_irq_tree := some s.nodes.length
             cur_irq_tree_depth := s.cur_irq_tree_depth + 1
             logging_active := true }

/-- Modelled from the spec: end_node is not under src.  It marks the cursor
node handled and retreats the cursor to its parent; when no unhandled node
remains the completion fires and logging deactivates.  Without a cursor the
call is a no-op. -/
def end_node (s : State) : State :=
  match s.cur_irq_tree with
  | none => s
  | some i =>
    match s.nodes.get? i with
    | none => s
    | some n =>
      let nodes1 := s.nodes.set i { n with handled := true }
      let s1 : State :=
        { s with nodes := nodes1
                 cur_irq_tree := n.parent
                 cur_irq_tree_depth := s.cur_irq_tree_depth - 1 }
      if nodes1.all (fun m => m.handled) then { s1 with logging_active := false } else s1

/-- Operations of the module, as invoked by its callers: the flat-list logger,
the abort logger, the two PM notifier events, the consumer call (with its
timeout and the modelled wait outcome), the tree producer calls, and the
explicit cycle reset. -/
inductive Op
  | log_wakeup (irq : Int)
  | log_abort (reason : String)
  | pm_prepare (xt st : Timespec)
  | pm_post (xt st : Timespec)
  | get_reasons (timeout signalled : Nat)
  | node_open (irq : Int)
  | node_close
  | cycle_clear
deriving DecidableEq, Repr

/-- Effect of one operation on the state. -/
def step (op : Op) (s : State) : State :=
  match op with
  | .log_wakeup irq => log_wakeup_reason irq s
  | .log_abort r => log_suspend_abort_reason r s
  | .pm_prepare xt st => wakeup_reason_pm_event .suspend_prepare xt st s
  | .pm_post xt st => wakeup_reason_pm_event .post_suspend xt st s
  | .get_reasons t sig => (get_wakeup_reasons t sig s).state
  | .node_open irq => begin_node irq s
  | .node_close => end_node s
  | .cycle_clear => clear_wakeup_reasons s

/-- Runs a list of operations left to right. -/
def run (ops : List Op) (s : State) : State :=
  match ops with
  | [] => s
  | op :: rest => run rest (step op s)

/-- Is an operation the abort logger. -/
def is_log_abort : Op → Bool
  | .log_abort _ => true
  | _ => false

/-- Does an operation reset the per-cycle abort flag (the prepare event and the
explicit clear are the only two). -/
def is_cycle_reset : Op → Bool
  | .pm_prepare _ _ => true
  | .cycle_clear => true
  | _ => false

/-- Concrete state with logging armed and one open unhandled node, used by the
witnesses below. -/
def sample_logging : State :=
  { init_state with
      logging_active := true
      nodes := [⟨7, false, none⟩]
      cur_irq_tree := some 0
      cur_irq_tree_depth := 1 }

/-- Concrete state whose flat irq list is full. -/
def sample_full : State :=
  { init_state with irq_list := List.replicate 32 0 }

/-- Concrete state with consistent clock samples: fifteen seconds elapsed, of
which twelve were spent asleep. -/
def sample_timed : State :=
  { init_state with
      last_xtime := ⟨10, 0⟩
      curr_xtime := ⟨25, 0⟩
      last_stime := ⟨100, 0⟩
      curr_stime := ⟨112, 0⟩ }

/-- Concrete state with an inconsistent clock: the sleep accumulator moved
backwards across the cycle. -/
def sample_clock_bug : State :=
  { init_state with last_stime := ⟨5, 0⟩, curr_stime := ⟨2, 0⟩ }

/-- Nanosecond value of a normalized difference equals the difference of the
nanosecond values. -/
theorem toNs_timespec_sub (a b : Timespec) :
    (timespec_sub a b).toNs = a.toNs - b.toNs := by
  simp only [timespec_sub, set_normalized_timespec, Timespec.toNs, NSEC_PER_SEC]
  omega

/-- C1: over any operation sequence, collect_leaves on the resulting state
returns exactly the indices of the nodes that have no children, and returns
them in insertion order (the arena index order, which is the order the
interrupts were recorded). -/
theorem C1_collect_leaves_childless_in_insertion_order (ops : List Op) :
    (∀ i, i ∈ collect_leaves (run ops init_state) ↔
        i < (run ops init_state).nodes.length ∧
        has_child (run ops init_state) i = false) ∧
    (collect_leaves (run ops init_state)).Pairwise (· < ·) := by
  constructor
  · intro i
    simp [collect_leaves, List.mem_filter, List.mem_range]
  · exact (List.pairwise_lt_range _).sublist (List.filter_sublist _)

/-- C2: when logging is active and the completion wait expires (the wait
primitive returns 0), get_wakeup_reasons returns the NULL leaf list together
with exactly the still-unhandled nodes, deactivates logging, and increments
wakeup_ready_timeout by exactly one. -/
theorem C2_timeout_unfinished (timeout : Nat) (s : State)
    (hlog : s.logging_active = true) :
    (get_wakeup_reasons timeout 0 s).leaves = none ∧
    (get_wakeup_reasons timeout 0 s).unfinished = build_unfinished_nodes s ∧
    (∀ i, i ∈ (get_wakeup_reasons timeout 0 s).unfinished ↔
        i < s.nodes.length ∧ node_handled s i = false) ∧
    (get_wakeup_reasons timeout 0 s).state.logging_active = false ∧
    (get_wakeup_reasons timeout 0 s).state.wakeup_ready_timeout =
      s.wakeup_ready_timeout + 1 := by
  refine ⟨?_, ?_, ?_, ?_, ?_⟩ <;>
    simp [get_wakeup_reasons, wait_outcome, hlog, build_unfinished_nodes,
      List.mem_filter, List.mem_range]

/-- C2 witness: the theorem applied to a concrete armed state with one
unhandled node and timeout 5. -/
theorem C2_timeout_unfinished_witness :
    sample_logging.logging_active = true ∧
    ((get_wakeup_reasons 5 0 sample_logging).leaves = none ∧
     (get_wakeup_reasons 5 0 sample_logging).unfinished =
       build_unfinished_nodes sample_logging ∧
     (∀ i, i ∈ (get_wakeup_reasons 5 0 sample_logging).unfinished ↔
         i < sample_logging.nodes.length ∧ node_handled sample_logging i = false) ∧
     (get_wakeup_reasons 5 0 sample_logging).state.logging_active = false ∧
     (get_wakeup_reasons 5 0 sample_logging).state.wakeup_ready_timeout =
       sample_logging.wakeup_ready_timeout + 1) :=
  ⟨rfl, C2_timeout_unfinished 5 sample_logging rfl⟩

/-- C3: when logging was never armed this cycle, get_wakeup_reasons returns at
once with the current leaf list, for any timeout and any wait outcome: the
unfinished list stays empty, the only state change is wakeup_ready_nowait
growing by one, and with an empty forest the returned leaf list is empty. -/
theorem C3_no_wait (timeout signalled : Nat) (s : State)
    (hlog : s.logging_active = false) :
    (get_wakeup_reasons timeout signalled s).leaves = some (collect_leaves s) ∧
    (get_wakeup_reasons timeout signalled s).unfinished = [] ∧
    (get_wakeup_reasons timeout signalled s).state =
      { s with wakeup_ready_nowait := s.wakeup_ready_nowait + 1 } ∧
    (s.nodes = [] → (get_wakeup_reasons timeout signalled s).leaves = some []) := by
  refine ⟨?_, ?_, ?_, ?_⟩
  · simp [get_wakeup_reasons, hlog]
  · simp [get_wakeup_reasons, hlog]
  · simp [get_wakeup_reasons, hlog]
  · intro hn
    simp [get_wakeup_reasons, hlog, collect_leaves, hn]

/-- C3 witness: the theorem applied to the initial state (logging never armed,
empty forest) with timeout 3. -/
theorem C3_no_wait_witness :
    init_state.logging_active = false ∧
    ((get_wakeup_reasons 3 0 init_state).leaves = some (collect_leaves init_state) ∧
     (get_wakeup_reasons 3 0 init_state).unfinished = [] ∧
     (get_wakeup_reasons 3 0 init_state).state =
       { init_state with wakeup_ready_nowait := init_state.wakeup_ready_nowait + 1 } ∧
     (init_state.nodes = [] → (get_wakeup_reasons 3 0 init_state).leaves = some [])) :=
  ⟨rfl, C3_no_wait 3 0 init_state rfl⟩

/-- C5: when the flat list already holds MAX_WAKEUP_REASON_IRQS entries,
log_wakeup_reason drops the event and leaves the whole state unchanged: the
recorded irqs and the recorded count are exactly what they were. -/
theorem C5_capacity_drop (irq : Int) (s : State)
    (h : s.irq_list.length = MAX_WAKEUP_REASON_IRQS) :
    log_wakeup_reason irq s = s := by
  simp [log_wakeup_reason, h]

/-- C5 witness: the theorem applied to a concrete full list. -/
theorem C5_capacity_drop_witness :
    sample_full.irq_list.length = MAX_WAKEUP_REASON_IRQS ∧
    log_wakeup_reason 9 sample_full = sample_full :=
  ⟨by simp [sample_full, init_state, MAX_WAKEUP_REASON_IRQS],
   C5_capacity_drop 9 sample_full
     (by simp [sample_full, init_state, MAX_WAKEUP_REASON_IRQS])⟩

/-- C10: with logging active and a zero timeout, get_wakeup_reasons skips the
wait entirely (whatever the wait primitive would have returned) and behaves
exactly as a timed-out wait: the result equals that of a genuinely expired
wait, the leaf pointer is NULL, the unfinished nodes are reported, logging is
deactivated and wakeup_ready_timeout grows by one. -/
theorem C10_zero_timeout_times_out (signalled : Nat) (s : State)
    (hlog : s.logging_active = true) :
    get_wakeup_reasons 0 signalled s = get_wakeup_reasons 1 0 s ∧
    (get_wakeup_reasons 0 signalled s).leaves = none ∧
    (get_wakeup_reasons 0 signalled s).unfinished = build_unfinished_nodes s ∧
    (get_wakeup_reasons 0 signalled s).state.logging_active = false ∧
    (get_wakeup_reasons 0 signalled s).state.wakeup_ready_timeout =
      s.wakeup_ready_timeout + 1 := by
  refine ⟨?_, ?_, ?_, ?_, ?_⟩ <;> simp [get_wakeup_reasons, wait_outcome, hlog]

/-- C10 witness: the theorem applied to a concrete armed state with the wait
primitive nominally reporting 4 remaining jiffies. -/
theorem C10_zero_timeout_times_out_witness :
    sample_logging.logging_active = true ∧
    (get_wakeup_reasons 0 4 sample_logging = get_wakeup_reasons 1 0 sample_logging ∧
     (get_wakeup_reasons 0 4 sample_logging).leaves = none ∧
     (get_wakeup_reasons 0 4 sample_logging).unfinished =
       build_unfinished_nodes sample_logging ∧
     (get_wakeup_reasons 0 4 sample_logging).state.logging_active = false ∧
     (get_wakeup_reasons 0 4 sample_logging).state.wakeup_ready_timeout =
       sample_logging.wakeup_ready_timeout + 1) :=
  ⟨rfl, C10_zero_timeout_times_out 4 sample_logging rfl⟩

/-- Case analysis on the state produced by get_wakeup_reasons: timeout branch,
successful-wait branch, or no-logging branch. -/
theorem get_wakeup_reasons_state_cases (t sig : Nat) (s : State) :
    (get_wakeup_reasons t sig s).state =
        { s with wakeup_ready_timeout := s.wakeup_ready_timeout + 1
                 logging_active := false } ∨
    (get_wakeup_reasons t sig s).state =
        { s with wakeup_ready_wait := max s.wakeup_ready_wait (t - wait_outcome t sig) } ∨
    (get_wakeup_reasons t sig s).state =
        { s with wakeup_ready_nowait := s.wakeup_ready_nowait + 1 } := by
  unfold get_wakeup_reasons
  split
  · split
    · exact Or.inl rfl
    · exact Or.inr (Or.inl rfl)
  · exact Or.inr (Or.inr rfl)

/-- C6: the prepare-suspend event rewrites exactly the per-cycle fields (the
recorded irq set, the abort flag) plus the pre-suspend snapshots, the
post-suspend event rewrites exactly the post-suspend snapshots, and no
operation of the module ever decreases any of the five aggregate counters. -/
theorem C6_pm_event_frame_counters_monotone :
    (∀ xt st s, wakeup_reason_pm_event .suspend_prepare xt st s =
        { s with irq_list := []
                 suspend_abort := false
                 last_xtime := xt
                 last_stime := st }) ∧
    (∀ xt st s, wakeup_reason_pm_event .post_suspend xt st s =
        { s with curr_xtime := xt, curr_stime := st }) ∧
    (∀ op s,
        s.suspend_count ≤ (step op s).suspend_count ∧
        s.abort_count ≤ (step op s).abort_count ∧
        s.wakeup_ready_timeout ≤ (step op s).wakeup_ready_timeout ∧
        s.wakeup_ready_wait ≤ (step op s).wakeup_ready_wait ∧
        s.wakeup_ready_nowait ≤ (step op s).wakeup_ready_nowait) := by
  refine ⟨fun xt st s => rfl, fun xt st s => rfl, fun op s => ?_⟩
  cases op with
  | log_wakeup irq =>
      simp only [step, log_wakeup_reason]
      split <;> simp
  | log_abort r =>
      simp only [step, log_suspend_abort_reason]
      split <;> simp
  | pm_prepare xt st => simp [step, wakeup_reason_pm_event]
  | pm_post xt st => simp [step, wakeup_reason_pm_event]
  | get_reasons t sig =>
      simp only [step]
      rcases get_wakeup_reasons_state_cases t sig s with h | h | h <;> rw [h] <;>
        refine ⟨?_, ?_, ?_, ?_, ?_⟩ <;> dsimp only <;> omega
  | node_open irq =>
      simp only [step, begin_node]
      split <;> simp
  | node_close =>
      simp only [step, end_node]
      split
      · simp
      · split
        · simp
        · split <;> simp
  | cycle_clear => simp [step, clear_wakeup_reasons]

/-- C7: within one cycle the abort reason is settable at most once: with the
flag already up the logger changes nothing, with the flag down it raises the
flag and stores the truncated reason, and a second call right after a first
one is a no-op. -/
theorem C7_abort_set_once (r1 r2 : String) (s : State) :
    (s.suspend_abort = true → log_suspend_abort_reason r1 s = s) ∧
    (s.suspend_abort = false → log_suspend_abort_reason r1 s =
        { s with suspend_abort := true, abort_reason := truncate_abort r1 }) ∧
    log_suspend_abort_reason r2 (log_suspend_abort_reason r1 s) =
      log_suspend_abort_reason r1 s := by
  by_cases hs : s.suspend_abort <;> simp [log_suspend_abort_reason, hs]

/-- C7 witness: the theorem applied to the initial state (flag down) with two
distinct reasons. -/
theorem C7_abort_set_once_witness :
    init_state.suspend_abort = false ∧
    log_suspend_abort_reason "first" init_state =
      { init_state with suspend_abort := true
                        abort_reason := truncate_abort "first" } ∧
    log_suspend_abort_reason "second" (log_suspend_abort_reason "first" init_state) =
      log_suspend_abort_reason "first" init_state :=
  ⟨rfl, (C7_abort_set_once "first" "second" init_state).2.1 rfl,
   (C7_abort_set_once "first" "second" init_state).2.2⟩

/-- C8: a prepare-suspend event followed immediately (the external clock reads
the same samples) by a post-suspend event with nothing recorded in between
yields sleep_duration equal to total_elapsed and a zero resume-work
duration. -/
theorem C8_round_trip_zero_resume (s : State) (xt st : Timespec) :
    (last_suspend_time_show (wakeup_reason_pm_event .post_suspend xt st
        (wakeup_reason_pm_event .suspend_prepare xt st s))).2 =
      timespec_sub
        (wakeup_reason_pm_event .post_suspend xt st
          (wakeup_reason_pm_event .suspend_prepare xt st s)).curr_xtime
        (wakeup_reason_pm_event .post_suspend xt st
          (wakeup_reason_pm_event .suspend_prepare xt st s)).last_xtime ∧
    (last_suspend_time_show (wakeup_reason_pm_event .post_suspend xt st
        (wakeup_reason_pm_event .suspend_prepare xt st s))).1 = ⟨0, 0⟩ := by
  simp [wakeup_reason_pm_event, last_suspend_time_show, timespec_sub,
    set_normalized_timespec]

/-- C9 (amended): under the sampling invariant (the sleep accumulator does not
move backwards and its advance does not exceed the wall-clock advance) the
three exported durations are non-negative.  The code performs no negativity
check: last_suspend_time_show returns the computed values as they are. -/
theorem C9_durations_nonneg (s : State)
    (hs2 : s.last_stime.toNs ≤ s.curr_stime.toNs)
    (hsx : s.curr_stime.toNs - s.last_stime.toNs ≤
      s.curr_xtime.toNs - s.last_xtime.toNs) :
    0 ≤ (last_suspend_time_show s).1.toNs ∧
    0 ≤ (last_suspend_time_show s).2.toNs ∧
    0 ≤ (timespec_sub s.curr_xtime s.last_xtime).toNs := by
  simp only [last_suspend_time_show, toNs_timespec_sub]
  omega

/-- C9 witness: the amended theorem applied to consistent concrete samples. -/
theorem C9_durations_nonneg_witness :
    (sample_timed.last_stime.toNs ≤ sample_timed.curr_stime.toNs ∧
     sample_timed.curr_stime.toNs - sample_timed.last_stime.toNs ≤
       sample_timed.curr_xtime.toNs - sample_timed.last_xtime.toNs) ∧
    (0 ≤ (last_suspend_time_show sample_timed).1.toNs ∧
     0 ≤ (last_suspend_time_show sample_timed).2.toNs ∧
     0 ≤ (timespec_sub sample_timed.curr_xtime sample_timed.last_xtime).toNs) :=
  ⟨⟨by decide, by decide⟩,
   C9_durations_nonneg sample_timed (by decide) (by decide)⟩

/-- C9 fails as stated: on a state whose sleep accumulator moved backwards the
show endpoint computes a negative sleep duration and returns it as an ordinary
value, with no consistency error of any kind; the exported pair is the wrong
value the claim forbids. -/
theorem C9_counterexample :
    (last_suspend_time_show sample_clock_bug).2.toNs < 0 ∧
    last_suspend_time_show sample_clock_bug = (⟨3, 0⟩, ⟨-3, 0⟩) := by
  decide

/-- Running an appended operation list composes. -/
theorem run_append (a b : List Op) (s : State) :
    run (a ++ b) s = run b (run a s) := by
  induction a generalizing s with
  | nil => rfl
  | cons op rest ih => simp [run, ih]

/-- No operation other than the abort logger raises the abort flag. -/
theorem step_keeps_abort_flag_down (op : Op) (s : State)
    (hop : is_log_abort op = false) (hs : s.suspend_abort = false) :
    (step op s).suspend_abort = false := by
  cases op with
  | log_wakeup irq =>
      simp only [step, log_wakeup_reason]
      split <;> simp [hs]
  | log_abort r => simp [is_log_abort] at hop
  | pm_prepare xt st => simp [step, wakeup_reason_pm_event]
  | pm_post xt st => simp [step, wakeup_reason_pm_event, hs]
  | get_reasons t sig =>
      rcases get_wakeup_reasons_state_cases t sig s with h | h | h <;>
        simp [step, h, hs]
  | node_open irq =>
      simp only [step, begin_node]
      split <;> simp [hs]
  | node_close =>
      simp only [step, end_node]
      split
      · exact hs
      · split
        · exact hs
        · split <;> simp [hs]
  | cycle_clear => simp [step, clear_wakeup_reasons]

/-- A whole cycle segment without an abort call keeps the abort flag down. -/
theorem run_keeps_abort_flag_down (ops : List Op) (s : State)
    (h : ops.any is_log_abort = false) (hs : s.suspend_abort = false) :
    (run ops s).suspend_abort = false := by
  induction ops generalizing s with
  | nil => exact hs
  | cons op rest ih =>
      simp only [List.any_cons, Bool.or_eq_false_iff] at h
      exact ih (step op s) h.2 (step_keeps_abort_flag_down op s h.1 hs)

/-- Once the abort flag is up, every operation other than a cycle reset keeps
it up and keeps the stored reason unchanged. -/
theorem step_abort_sticky (op : Op) (s : State)
    (hop : is_cycle_reset op = false) (hs : s.suspend_abort = true) :
    (step op s).suspend_abort = true ∧ (step op s).abort_reason = s.abort_reason := by
  cases op with
  | log_wakeup irq =>
      simp only [step, log_wakeup_reason]
      split <;> simp [hs]
  | log_abort r => simp [step, log_suspend_abort_reason, hs]
  | pm_prepare xt st => simp [is_cycle_reset] at hop
  | pm_post xt st => simp [step, wakeup_reason_pm_event, hs]
  | get_reasons t sig =>
      rcases get_wakeup_reasons_state_cases t sig s with h | h | h <;>
        simp [step, h, hs]
  | node_open irq =>
      simp only [step, begin_node]
      split <;> simp [hs]
  | node_close =>
      simp only [step, end_node]
      split
      · simp [hs]
      · split
        · simp [hs]
        · split <;> simp [hs]
  | cycle_clear => simp [is_cycle_reset] at hop

/-- A whole segment without a cycle reset keeps the abort flag up and the
stored reason unchanged. -/
theorem run_abort_sticky (ops : List Op) (s : State)
    (h : ops.any is_cycle_reset = false) (hs : s.suspend_abort = true) :
    (run ops s).suspend_abort = true ∧ (run ops s).abort_reason = s.abort_reason := by
  induction ops generalizing s with
  | nil => exact ⟨hs, rfl⟩
  | cons op rest ih =>
      simp only [List.any_cons, Bool.or_eq_false_iff] at h
      have hstep := step_abort_sticky op s h.1 hs
      have hrest := ih (step op s) h.2 hstep.1
      exact ⟨hrest.1, hrest.2.trans hstep.2⟩

/-- Reasons that fit the bounded buffer are stored unchanged. -/
theorem truncate_abort_of_short (r : String)
    (h : r.length ≤ MAX_SUSPEND_ABORT_LEN - 1) :
    truncate_abort r = r := by
  have hd : r.data.length ≤ MAX_SUSPEND_ABORT_LEN - 1 := h
  simp [truncate_abort, List.take_of_length_le hd]

/-- C4 fails as stated: in a cycle where an abort with reason Y precedes the
abort call with reason X, the report keeps the Abort line for Y even though
the abort logger was called with X before the report was read. -/
theorem C4_counterexample :
    last_resume_reason_show
        (run [Op.log_abort "Y", Op.log_abort "X"] init_state) ≠ "Abort: X" ∧
    last_resume_reason_show
        (run [Op.log_abort "Y", Op.log_abort "X"] init_state) = "Abort: Y" := by
  decide

/-- C4 (amended): when the abort call with reason X is the first abort call of
the cycle, X fits the bounded buffer, and no cycle reset occurs afterwards
before the report is read, the last-resume-reason report is exactly the Abort
line for X, whatever else was recorded around it. -/
theorem C4_first_abort_precedence (pre post : List Op) (X : String) (s : State)
    (hs : s.suspend_abort = false)
    (hpre : pre.any is_log_abort = false)
    (hpost : post.any is_cycle_reset = false)
    (hlen : X.length ≤ MAX_SUSPEND_ABORT_LEN - 1) :
    last_resume_reason_show (run (pre ++ Op.log_abort X :: post) s) =
      "Abort: " ++ X := by
  have h1 : (run pre s).suspend_abort = false :=
    run_keeps_abort_flag_down pre s hpre hs
  rw [run_append]
  show last_resume_reason_show (run post (step (Op.log_abort X) (run pre s))) = _
  have hstep : step (Op.log_abort X) (run pre s) =
      { run pre s with suspend_abort := true
                       abort_reason := truncate_abort X } := by
    simp [step, log_suspend_abort_reason, h1]
  rw [hstep]
  have h2 := run_abort_sticky post
    { run pre s with suspend_abort := true, abort_reason := truncate_abort X }
    hpost rfl
  simp only [last_resume_reason_show, h2.1, if_true]
  rw [h2.2]
  simp [truncate_abort_of_short X hlen]

/-- C4 witness: the amended theorem applied to a concrete cycle where an irq is
recorded, the first abort call stores the reason bad, and another irq is
recorded before the report. -/
theorem C4_first_abort_precedence_witness :
    (init_state.suspend_abort = false ∧
     [Op.log_wakeup 3].any is_log_abort = false ∧
     [Op.log_wakeup 4].any is_cycle_reset = false ∧
     ("bad" : String).length ≤ MAX_SUSPEND_ABORT_LEN - 1) ∧
    last_resume_reason_show
        (run ([Op.log_wakeup 3] ++ Op.log_abort "bad" :: [Op.log_wakeup 4])
          init_state) = "Abort: " ++ "bad" :=
  ⟨⟨rfl, by decide, by decide, by decide⟩,
   C4_first_abort_precedence [Op.log_wakeup 3] [Op.log_wakeup 4] "bad" init_state
     rfl (by decide) (by decide) (by decide)⟩

/-- Validation of the modelled producer operations against the nested scenario
of the spec: prepare, open irq 17, open irq 5 nested under it, close both, post
suspend; the consumer then gets exactly the leaf node of irq 5 (index 1), node
17 is not a leaf, and logging already quiesced. -/
theorem scenario_nested_wakeup :
    (run [Op.pm_prepare ⟨0, 0⟩ ⟨0, 0⟩, Op.node_open 17, Op.node_open 5,
        Op.node_close, Op.node_close, Op.pm_post ⟨1, 0⟩ ⟨1, 0⟩]
      init_state).logging_active = false ∧
    (run [Op.pm_prepare ⟨0, 0⟩ ⟨0, 0⟩, Op.node_open 17, Op.node_open 5,
        Op.node_close, Op.node_close, Op.pm_post ⟨1, 0⟩ ⟨1, 0⟩]
      init_state).nodes.map WakeupIrqNode.irq = [17, 5] ∧
    (get_wakeup_reasons 100 50
      (run [Op.pm_prepare ⟨0, 0⟩ ⟨0, 0⟩, Op.node_open 17, Op.node_open 5,
          Op.node_close, Op.node_close, Op.pm_post ⟨1, 0⟩ ⟨1, 0⟩]
        init_state)).leaves = some [1] := by
  decide
